import Mathlib

/-!
Verification of the FracttalUpdater repository.

Shallow embedding of the update pipeline of `fracttal_updater`:
  * `processing.py` : `calculate_value_to_add`, `get_interno_and_categoria`
  * `api.py`        : `FracttalAPI.authenticate`, `get_meter_value`, `update_meter`
  * `gui.py`        : `UpdateWorker.run` (the per-row update loop)

Numeric values are modelled by `ℚ` (the Python code only ever manipulates
finite decimal numbers parsed from spreadsheet text; the IEEE special
values `inf`/`nan` accepted by Python `float()` fall outside this rational
model and are noted where relevant).  Spreadsheet cells are modelled by
their `str()` rendering; an `Option String` field is `none` when the
column is absent from the sheet, so that the `row.get(column, default)`
default applies.
-/

namespace FracttalUpdater

/-! ### Python string primitives -/

/-- Characters stripped by Python `str.strip()` (ASCII fragment; Lean's
`Char.isWhitespace` covers space, tab, CR, LF, which are the whitespace
characters that occur in spreadsheet text). -/
def isPySpace (c : Char) : Bool := c.isWhitespace

/-- `str.strip()` on a character list. -/
def pyStripChars (cs : List Char) : List Char :=
  ((cs.dropWhile isPySpace).reverse.dropWhile isPySpace).reverse

/-- Model of Python `str.strip()`. -/
def pyStrip (s : String) : String := ⟨pyStripChars s.data⟩

/-- ASCII uppercase of one character, as Python `str.upper()` acts on the
ASCII range (the only range exercised by the status marker "OK"). -/
def pyUpperChar (c : Char) : Char :=
  if 'a' ≤ c ∧ c ≤ 'z' then Char.ofNat (c.toNat - 32) else c

/-- Model of Python `str.upper()` (ASCII fragment). -/
def pyUpper (s : String) : String := ⟨s.data.map pyUpperChar⟩

/-- Model of Python `str.replace(",", ".")` (single-character pattern, so a
character map is exact). -/
def pyReplaceCommaDot (s : String) : String :=
  ⟨s.data.map (fun c => if c = ',' then '.' else c)⟩

/-- Model of Python `str.split(":")`: splitting on every colon, keeping
empty segments, so the result is always nonempty. -/
def splitColon : List Char → List (List Char)
  | [] => [[]]
  | c :: rest =>
    let r := splitColon rest
    if c = ':' then [] :: r
    else
      match r with
      | h :: t => (c :: h) :: t
      | [] => [[c]]

/-! ### Python numeric literal parsing

The syntactic analysis of a numeric literal is kept separate from its
rational value, so that the syntax is decidably computable (the value map
involves `ℚ` arithmetic, which Batteries makes irreducible). -/

/-- Value of a list of decimal digits. -/
def digitsVal (ds : List Char) : ℕ :=
  ds.foldl (fun n c => 10 * n + (c.toNat - 48)) 0

/-- Consume an optional leading sign; `true` means negative. -/
def parseSign : List Char → Bool × List Char
  | '-' :: r => (true, r)
  | '+' :: r => (false, r)
  | r => (false, r)

/-- Apply a sign flag to a rational. -/
def applySign (neg : Bool) (q : ℚ) : ℚ := if neg then -q else q

/-- Parse the exponent suffix of a float literal: empty input means
exponent 0; otherwise `e`/`E`, an optional sign and a nonempty digit run
consuming the whole rest. -/
def parseExp : List Char → Option ℤ
  | [] => some 0
  | c :: rest =>
    if c = 'e' ∨ c = 'E' then
      let (neg, r) := parseSign rest
      let ds := r.takeWhile Char.isDigit
      let r2 := r.dropWhile Char.isDigit
      if ds.isEmpty ∨ ¬ r2.isEmpty then none
      else some (if neg then -(digitsVal ds : ℤ) else (digitsVal ds : ℤ))
    else none

/-- Syntactic parts of a finite decimal float literal: sign, integer part,
fractional part with its digit count, decimal exponent. -/
structure FloatLit where
  neg : Bool
  intPart : ℕ
  fracPart : ℕ
  fracLen : ℕ
  exp : ℤ
deriving DecidableEq

/-- The rational value denoted by a float literal. -/
def FloatLit.val (l : FloatLit) : ℚ :=
  applySign l.neg
    (((l.intPart : ℚ) + (l.fracPart : ℚ) / (10 : ℚ) ^ l.fracLen) * (10 : ℚ) ^ l.exp)

/-- Syntax of Python `float(s)` on a stripped character list, restricted
to finite decimal literals: optional sign, digits with an optional decimal
point (at least one digit overall), optional exponent.  The Python
extensions outside this model (the `inf`/`nan` words, digit-group
underscores, non-ASCII digits) do not occur in the spreadsheet texts the
claims quantify over and are outside the rational value model. -/
def pyFloatSyntax (cs : List Char) : Option FloatLit :=
  let (neg, rest) := parseSign cs
  let ip := rest.takeWhile Char.isDigit
  let rest1 := rest.dropWhile Char.isDigit
  match rest1 with
  | '.' :: rest2 =>
    let fp := rest2.takeWhile Char.isDigit
    let rest3 := rest2.dropWhile Char.isDigit
    if ip.isEmpty ∧ fp.isEmpty then none
    else (parseExp rest3).map fun e => ⟨neg, digitsVal ip, digitsVal fp, fp.length, e⟩
  | _ =>
    if ip.isEmpty then none
    else (parseExp rest1).map fun e => ⟨neg, digitsVal ip, 0, 0, e⟩

/-- Model of Python `float(s)` (which strips surrounding whitespace),
as a rational. -/
def pyFloat (s : String) : Option ℚ :=
  (pyFloatSyntax (pyStripChars s.data)).map FloatLit.val

/-- Model of Python `int(s)`: strip, optional sign, nonempty digit run
consuming everything. -/
def pyIntChars (cs : List Char) : Option ℤ :=
  let (neg, rest) := parseSign cs
  if rest.isEmpty ∨ ¬ rest.all Char.isDigit then none
  else some (if neg then -(digitsVal rest : ℤ) else (digitsVal rest : ℤ))

/-- Model of Python `int(s)`. -/
def pyInt (s : String) : Option ℤ := pyIntChars (pyStripChars s.data)

/-! ### Report rows (`processing.py`) -/

/-- A spreadsheet row as the pipeline sees it.  Each field holds the
`str()` rendering of the cell when the column exists (a missing value in
an existing column renders as `"nan"`); `none` means the whole column is
absent, so `row.get(col, default)` returns the default. -/
structure Row where
  interno : Option String := none
  categoria : Option String := none
  km : Option String := none
  tiempo : Option String := none
  estado : Option String := none
deriving DecidableEq

/-- `str(row.get("Interno", "")).strip()`. -/
def Row.getInterno (r : Row) : String := pyStrip (r.interno.getD "")

/-- `str(row.get("Categoría", "")).strip()`. -/
def Row.getCategoria (r : Row) : String := pyStrip (r.categoria.getD "")

/-- `str(row.get("Estado", "")).strip().upper()` (the already-processed
check in `UpdateWorker.run`). -/
def Row.getEstado (r : Row) : String := pyUpper (pyStrip (r.estado.getD ""))

/-- `processing.get_interno_and_categoria`. -/
def get_interno_and_categoria (r : Row) : String × String :=
  (r.getInterno, r.getCategoria)

/-- `processing.calculate_value_to_add`, line for line:
vehicle categories parse the `Km` cell with `float` after a comma→dot
replacement (`ValueError` → `(0, "Km")`); `"Maquinarias"` splits the
`Tiempo de marcha` cell on `":"`, `int`-parses the first part as hours and
the second (0 when absent) as minutes, ignoring further parts
(`ValueError`/`IndexError` → `(0, "Horas")`); any other category gives
`(0, "Desconocido")`. -/
def calculate_value_to_add (r : Row) : ℚ × String :=
  if r.getCategoria = "Flota Liviana" ∨ r.getCategoria = "Camiones" then
    match pyFloat (pyReplaceCommaDot (r.km.getD "0")) with
    | some v => (v, "Km")
    | none => (0, "Km")
  else if r.getCategoria = "Maquinarias" then
    match splitColon (pyStrip (r.tiempo.getD "0:00")).data with
    | [] => (0, "Horas")
    | p0 :: rest =>
      match pyIntChars (pyStripChars p0) with
      | none => (0, "Horas")
      | some h =>
        match rest with
        | [] => ((h : ℚ), "Horas")
        | p1 :: _ =>
          match pyIntChars (pyStripChars p1) with
          | none => (0, "Horas")
          | some m => ((h : ℚ) + (m : ℚ) / 60, "Horas")
  else (0, "Desconocido")


/-! ### The update pipeline (`UpdateWorker.run` in `gui.py`)

The remote client is abstracted to an oracle that fixes, for each row
index, the outcome of the meter lookup and of the meter update the
pipeline would issue while on that row (the client's non-raising
behaviour; the raising corner of the client is studied separately on the
`api.py` model below).  Remote calls and spreadsheet status writes are
recorded as an action trace per row. -/

/-- One observable side effect of the per-row loop: a `get_meter_value`
call, an `update_meter` call, or a `mark_status` write into the
spreadsheet. -/
inductive Action where
  | lookup (serial : String)
  | update (serial : String) (value : ℚ)
  | write (rowIdx : ℕ) (status : String)
deriving DecidableEq

/-- Terminal classification of a row, one per `continue`/fall-through
path of the loop body. -/
inductive RowClass where
  | noId
  | already
  | noMeter
  | skipped
  | updated
  | updateFailed
deriving DecidableEq

/-- The four run statistics counters. -/
structure Stats where
  successful : ℕ
  failed : ℕ
  skipped : ℕ
  already : ℕ
deriving DecidableEq

/-- The all-zero counters created at run start. -/
def Stats.zero : Stats := ⟨0, 0, 0, 0⟩

/-- Counter increment per row classification, exactly as the loop body
increments `successful`/`failed`/`skipped`/`already_processed` (a
no-identifier row touches no counter; an absent meter and a failed update
both count as failed). -/
def stepStats (c : RowClass) (s : Stats) : Stats :=
  match c with
  | .noId => s
  | .already => { s with already := s.already + 1 }
  | .noMeter => { s with failed := s.failed + 1 }
  | .skipped => { s with skipped := s.skipped + 1 }
  | .updated => { s with successful := s.successful + 1 }
  | .updateFailed => { s with failed := s.failed + 1 }

/-- Oracle fixing the remote client's answers during one run: whether
`authenticate()` succeeds, and the result of the lookup and of the update
issued while the loop is on row `idx`. -/
structure Oracle where
  auth : Bool
  lookup : ℕ → Option ℚ
  update : ℕ → Bool × String

/-- The loop body of `UpdateWorker.run` for one row, returning the row's
classification and the ordered remote-call/status-write trace it
produces:
1. empty or `"nan"` identifier → silently `continue` (no calls);
2. `Estado` equal to `"OK"` after strip/upper → already processed (no
   calls);
3. `get_meter_value` returning `None` → failed, "no meter";
4. zero delta from `calculate_value_to_add` → skipped (no update call);
5. otherwise `update_meter(interno, current + delta)`; on success the
   status cell of this row is written immediately, on failure it is not. -/
def processRow (o : Oracle) (idx : ℕ) (r : Row) : RowClass × List Action :=
  if r.getInterno = "" ∨ r.getInterno = "nan" then (.noId, [])
  else if r.getEstado = "OK" then (.already, [])
  else
    match o.lookup idx with
    | none => (.noMeter, [.lookup r.getInterno])
    | some cur =>
      if (calculate_value_to_add r).1 = 0 then (.skipped, [.lookup r.getInterno])
      else
        if (o.update idx).1 then
          (.updated, [.lookup r.getInterno,
            .update r.getInterno (cur + (calculate_value_to_add r).1),
            .write idx "OK"])
        else
          (.updateFailed, [.lookup r.getInterno,
            .update r.getInterno (cur + (calculate_value_to_add r).1)])

/-- Result of one pipeline run: the `finished_signal` payload, the final
counters, and the per-row outcomes in row order. -/
structure RunResult where
  ok : Bool
  message : String
  stats : Stats
  rowResults : List (ℕ × RowClass × List Action)
deriving DecidableEq

/-- `UpdateWorker.run` over a loaded row list: authenticate first and
abort the whole run on failure; otherwise visit every row once in order,
accumulate the counters, and finish with the summary signal. -/
def runPipeline (o : Oracle) (rows : List Row) : RunResult :=
  if o.auth then
    let results := rows.enum.map fun p => (p.1, processRow o p.1 p.2)
    let stats := results.foldl (fun s p => stepStats p.2.1 s) Stats.zero
    { ok := true
      message := toString stats.successful ++ " exitosos, " ++ toString stats.failed ++ " fallidos"
      stats := stats
      rowResults := results }
  else
    { ok := false, message := "Error de autenticación", stats := Stats.zero, rowResults := [] }

/-! ### The remote client (`api.py`)

The three methods of `FracttalAPI` are modelled against an arbitrary HTTP
outcome: either a transport-level `requests.RequestException`, or a
response with a status code, an optional parsed JSON body (`none` when
the body is not valid JSON, in which case `response.json()` raises
`requests.JSONDecodeError`, a `RequestException` subclass), and the raw
body text.  JSON values carry Python dynamics: attribute errors from
calling `.get` on a non-dict (which are **not** `RequestException`s and
so escape the `except` clauses) surface as `Except.error`. -/

/-- A Python/JSON value as handled by the client code. -/
inductive PyVal where
  | none
  | bool (b : Bool)
  | int (n : ℤ)
  | num (q : ℚ)
  | str (s : String)
  | list (xs : List PyVal)
  | dict (kvs : List (String × PyVal))

/-- Python `v is None`. -/
def PyVal.isNone : PyVal → Bool
  | .none => true
  | _ => false

/-- Python truthiness, as used by `if data.get("success"):` and
`if not data.get("data"):`. -/
def PyVal.truthy : PyVal → Bool
  | .none => false
  | .bool b => b
  | .int n => n ≠ 0
  | .num q => q ≠ 0
  | .str s => s ≠ ""
  | .list xs => ¬ xs.isEmpty
  | .dict kvs => ¬ kvs.isEmpty

/-- Association lookup in a Python dict. -/
def lookupKey (k : String) : List (String × PyVal) → Option PyVal
  | [] => Option.none
  | (k2, v) :: rest => if k2 = k then some v else lookupKey k rest

/-- Python `v.get(key, default)`: only dicts have `.get`; anything else
raises `AttributeError`, which the client's `except requests.RequestException`
clauses do not catch. -/
def PyVal.get (v : PyVal) (k : String) (default : PyVal) : Except String PyVal :=
  match v with
  | .dict kvs => .ok ((lookupKey k kvs).getD default)
  | _ => .error "AttributeError"

/-- Python `v[0]` on the truthy value found under `"data"`: a (nonempty)
list or string yields its first element; any other type raises
`TypeError`. -/
def PyVal.first : PyVal → Except String PyVal
  | .list (x :: _) => .ok x
  | .list [] => .error "IndexError"
  | .str s =>
    match s.data with
    | c :: _ => .ok (.str ⟨[c]⟩)
    | [] => .error "IndexError"
  | _ => .error "TypeError"

/-- Python `repr`-style rendering used by the failure message
f-strings (approximate: enough to keep the messages value-dependent). -/
def pyRepr : PyVal → String
  | .none => "None"
  | .bool true => "True"
  | .bool false => "False"
  | .int n => toString n
  | .num q => toString q
  | .str s => s
  | .list xs => "[" ++ String.intercalate ", " (xs.attach.map fun x => pyRepr x.1) ++ "]"
  | .dict kvs => "\x7b" ++
      String.intercalate ", " (kvs.attach.map fun x => x.1.1 ++ ": " ++ pyRepr x.1.2) ++ "\x7d"
decreasing_by
  · have := List.sizeOf_lt_of_mem x.2
    simp only [PyVal.list.sizeOf_spec]
    omega
  · have h1 := List.sizeOf_lt_of_mem x.2
    have h2 : sizeOf (x.1.2) < sizeOf x.1 := by
      obtain ⟨⟨a, b⟩, hx⟩ := x
      simp
    simp only [PyVal.dict.sizeOf_spec]
    omega

/-- The outcome of one HTTP call as the client sees it. -/
inductive HResp where
  | exn (msg : String)
  | resp (status : ℕ) (jsonBody : Option PyVal) (text : String)

/-- `requests.Response.raise_for_status()` raises `HTTPError` exactly for
4xx and 5xx status codes. -/
def raisesForStatus (status : ℕ) : Bool := 400 ≤ status ∧ status < 600

/-- `FracttalAPI.authenticate` on the auth endpoint's outcome: any
`RequestException` (transport error, error status via `raise_for_status`,
unparsable JSON body) is caught and yields `False`; otherwise the token
is `data.get("access_token")` and the result is `token is not None`.
`.get` on a non-dict body raises `AttributeError`, which escapes. -/
def authenticate (r : HResp) : Except String Bool :=
  match r with
  | .exn _ => .ok false
  | .resp status body _ =>
    if raisesForStatus status then .ok false
    else
      match body with
      | Option.none => .ok false
      | some data =>
        match data.get "access_token" .none with
        | .error e => .error e
        | .ok tok => .ok (! tok.isNone)

/-- `FracttalAPI.get_meter_value` on the meters endpoint's outcome:
`RequestException`s (transport, error status, bad JSON) are caught and
yield `None`; a body whose `"data"` entry is falsy (missing, `null`,
empty list, ...) yields `None`; otherwise the first element's
`last_data.accumulated_value` is returned (`.get` defaults make a missing
`last_data` an empty dict and a missing value `None`).  Dynamic type
errors (`.get`/indexing on wrongly-typed values) escape. -/
def get_meter_value (r : HResp) : Except String PyVal :=
  match r with
  | .exn _ => .ok .none
  | .resp status body _ =>
    if raisesForStatus status then .ok .none
    else
      match body with
      | Option.none => .ok .none
      | some data =>
        match data.get "data" .none with
        | .error e => .error e
        | .ok dv =>
          if ¬ dv.truthy then .ok .none
          else
            match dv.first with
            | .error e => .error e
            | .ok meter =>
              match meter.get "last_data" (.dict []) with
              | .error e => .error e
              | .ok lastData =>
                match lastData.get "accumulated_value" .none with
                | .error e => .error e
                | .ok acc => .ok acc

/-- `FracttalAPI.update_meter` on the meter-reading endpoint's outcome:
status 200 with a JSON body reporting truthy `success` yields
`(True, ...)`; status 200 with non-truthy `success` yields the
remote-reported failure message; non-200 status yields the HTTP failure
message with the body text; a transport exception (including a 200 body
that is not valid JSON) yields the exception message.  `.get` on a
non-dict 200 JSON body raises `AttributeError`, which escapes. -/
def update_meter (r : HResp) : Except String (Bool × String) :=
  match r with
  | .exn msg => .ok (false, "Excepción al actualizar contador: " ++ msg)
  | .resp status body text =>
    if status = 200 then
      match body with
      | Option.none =>
        .ok (false, "Excepción al actualizar contador: Expecting value")
      | some data =>
        match data.get "success" .none with
        | .error e => .error e
        | .ok s =>
          if s.truthy then .ok (true, "Contador actualizado correctamente.")
          else .ok (false, "Error reportado por Fracttal: " ++ pyRepr data)
    else .ok (false, "Error HTTP " ++ toString status ++ ": " ++ text)

/-! ### Observation helpers and spec-side definitions

The `spec...` definitions below transcribe the *claims'* wording, for
comparison against the definitions transcribed from the source; they are
used by the refinement theorems only. -/

/-- Whether an action is a spreadsheet status write. -/
def Action.isWrite : Action → Bool
  | .write _ _ => true
  | _ => false

/-- Whether an action is a remote meter update call. -/
def Action.isUpdate : Action → Bool
  | .update _ _ => true
  | _ => false

/-- Whether a client call raised (escaped the method). -/
def raised {α : Type} : Except String α → Bool
  | .error _ => true
  | .ok _ => false

/-- The boolean verdict of `update_meter` when it returned. -/
def updateVerdict : Except String (Bool × String) → Option Bool
  | .ok (b, _) => some b
  | .error _ => Option.none

/-- Spec-modelled, from the claim wording: parse the running-time field
"as `H:MM` into decimal hours (`hours + minutes/60`)", with "malformed
input (missing colon, non-numeric) giving 0". -/
def specHMMClaimed (s : String) : ℚ :=
  match splitColon s.data with
  | [p0, p1] =>
    match pyIntChars (pyStripChars p0), pyIntChars (pyStripChars p1) with
    | some h, some m => (h : ℚ) + (m : ℚ) / 60
    | _, _ => 0
  | _ => 0

/-- Spec-modelled, from the claim wording: the case definition claimed
for `calculate_value_to_add` (C2). -/
def specCalculatorClaimed (r : Row) : ℚ × String :=
  if r.getCategoria = "Flota Liviana" ∨ r.getCategoria = "Camiones" then
    ((pyFloat (pyReplaceCommaDot (r.km.getD "0"))).getD 0, "Km")
  else if r.getCategoria = "Maquinarias" then
    (specHMMClaimed (pyStrip (r.tiempo.getD "0:00")), "Horas")
  else (0, "Desconocido")

/-- Amended running-time parse: split on `":"`; the segment before the
first colon parses as integer hours; the segment after it (0 when there
is no colon) parses as integer minutes, segments beyond the second being
ignored; the value is `hours + minutes/60`, and 0 when either integer
parse fails. -/
def specHMMAmended (s : String) : ℚ :=
  match splitColon s.data with
  | [] => 0
  | p0 :: rest =>
    match pyIntChars (pyStripChars p0), rest with
    | Option.none, _ => 0
    | some h, [] => (h : ℚ)
    | some h, p1 :: _ =>
      match pyIntChars (pyStripChars p1) with
      | Option.none => 0
      | some m => (h : ℚ) + (m : ℚ) / 60

/-- The amended case definition for `calculate_value_to_add` (C2):
identical to the claimed one except for the running-time parse. -/
def specCalculatorAmended (r : Row) : ℚ × String :=
  if r.getCategoria = "Flota Liviana" ∨ r.getCategoria = "Camiones" then
    ((pyFloat (pyReplaceCommaDot (r.km.getD "0"))).getD 0, "Km")
  else if r.getCategoria = "Maquinarias" then
    (specHMMAmended (pyStrip (r.tiempo.getD "0:00")), "Horas")
  else (0, "Desconocido")

/-- Whether a Python value is a dict. -/
def PyVal.isDict : PyVal → Bool
  | .dict _ => true
  | _ => false

/-- Amended success condition for `update_meter` (C3): HTTP status 200
and a JSON body that is an object whose `success` entry is truthy. -/
def specUpdateSuccess (r : HResp) : Bool :=
  match r with
  | .resp status (some (PyVal.dict kvs)) _ =>
    decide (status = 200) && ((lookupKey "success" kvs).getD .none).truthy
  | _ => false

/-- Amended raising condition for `update_meter` (C3): HTTP status 200
with a body that parses as JSON but not as an object, making
`data.get("success")` raise `AttributeError` past the `except` clause. -/
def specUpdateRaises (r : HResp) : Bool :=
  match r with
  | .resp status (some data) _ => decide (status = 200) && ! data.isDict
  | _ => false

/-! ### Concrete fixtures used by witnesses -/

/-- An all-successful remote oracle. -/
def oracleA : Oracle :=
  ⟨true, fun _ => some 1000, fun _ => (true, "Contador actualizado correctamente.")⟩

/-- An oracle whose authentication fails. -/
def oracleNoAuth : Oracle := ⟨false, fun _ => some 1000, fun _ => (true, "")⟩

/-- A one-row source whose row is already marked "OK". -/
def rowsAlready : List Row := [{ interno := some "ER-1022", estado := some "OK" }]

/-! ### Evaluation lemmas for `calculate_value_to_add`

These push each concrete row into its branch, so that examples only have
to decide string syntax and normalise numerals. -/

theorem calc_vehicle_some (r : Row)
    (hc : r.getCategoria = "Flota Liviana" ∨ r.getCategoria = "Camiones")
    {v : ℚ} (hv : pyFloat (pyReplaceCommaDot (r.km.getD "0")) = some v) :
    calculate_value_to_add r = (v, "Km") := by
  unfold calculate_value_to_add
  rw [if_pos hc, hv]

theorem calc_vehicle_none (r : Row)
    (hc : r.getCategoria = "Flota Liviana" ∨ r.getCategoria = "Camiones")
    (hv : pyFloat (pyReplaceCommaDot (r.km.getD "0")) = none) :
    calculate_value_to_add r = (0, "Km") := by
  unfold calculate_value_to_add
  rw [if_pos hc, hv]

theorem calc_unknown (r : Row)
    (hc1 : r.getCategoria ≠ "Flota Liviana") (hc2 : r.getCategoria ≠ "Camiones")
    (hc3 : r.getCategoria ≠ "Maquinarias") :
    calculate_value_to_add r = (0, "Desconocido") := by
  unfold calculate_value_to_add
  rw [if_neg (by simp [hc1, hc2]), if_neg hc3]

theorem calc_maq_two (r : Row) (hc : r.getCategoria = "Maquinarias")
    (hc1 : r.getCategoria ≠ "Flota Liviana") (hc2 : r.getCategoria ≠ "Camiones")
    {p0 p1 : List Char} {ps : List (List Char)} {h m : ℤ}
    (hs : splitColon (pyStrip (r.tiempo.getD "0:00")).data = p0 :: p1 :: ps)
    (hh : pyIntChars (pyStripChars p0) = some h)
    (hm : pyIntChars (pyStripChars p1) = some m) :
    calculate_value_to_add r = ((h : ℚ) + (m : ℚ) / 60, "Horas") := by
  unfold calculate_value_to_add
  rw [if_neg (by simp [hc1, hc2]), if_pos hc]
  simp only [hs, hh, hm]

theorem calc_maq_nocolon (r : Row) (hc : r.getCategoria = "Maquinarias")
    (hc1 : r.getCategoria ≠ "Flota Liviana") (hc2 : r.getCategoria ≠ "Camiones")
    {p0 : List Char} {h : ℤ}
    (hs : splitColon (pyStrip (r.tiempo.getD "0:00")).data = [p0])
    (hh : pyIntChars (pyStripChars p0) = some h) :
    calculate_value_to_add r = ((h : ℚ), "Horas") := by
  unfold calculate_value_to_add
  rw [if_neg (by simp [hc1, hc2]), if_pos hc]
  simp only [hs, hh]

theorem calc_maq_fail0 (r : Row) (hc : r.getCategoria = "Maquinarias")
    (hc1 : r.getCategoria ≠ "Flota Liviana") (hc2 : r.getCategoria ≠ "Camiones")
    {p0 : List Char} {ps : List (List Char)}
    (hs : splitColon (pyStrip (r.tiempo.getD "0:00")).data = p0 :: ps)
    (hh : pyIntChars (pyStripChars p0) = none) :
    calculate_value_to_add r = (0, "Horas") := by
  unfold calculate_value_to_add
  rw [if_neg (by simp [hc1, hc2]), if_pos hc]
  simp only [hs, hh]

theorem calc_maq_fail1 (r : Row) (hc : r.getCategoria = "Maquinarias")
    (hc1 : r.getCategoria ≠ "Flota Liviana") (hc2 : r.getCategoria ≠ "Camiones")
    {p0 p1 : List Char} {ps : List (List Char)} {h : ℤ}
    (hs : splitColon (pyStrip (r.tiempo.getD "0:00")).data = p0 :: p1 :: ps)
    (hh : pyIntChars (pyStripChars p0) = some h)
    (hm : pyIntChars (pyStripChars p1) = none) :
    calculate_value_to_add r = (0, "Horas") := by
  unfold calculate_value_to_add
  rw [if_neg (by simp [hc1, hc2]), if_pos hc]
  simp only [hs, hh, hm]

example : calculate_value_to_add { categoria := some "Camiones", km := some "123,5" } = (247/2, "Km") := by
  rw [calc_vehicle_some _ (Or.inr (by decide))
    (v := FloatLit.val ⟨false, 123, 5, 1, 0⟩)]
  · simp [FloatLit.val, applySign]
    norm_num
  · show (pyFloatSyntax (pyStripChars (pyReplaceCommaDot "123,5").data)).map FloatLit.val = _
    rw [show pyFloatSyntax (pyStripChars (pyReplaceCommaDot "123,5").data) =
      some ⟨false, 123, 5, 1, 0⟩ by decide]
    rfl

example : calculate_value_to_add { categoria := some "Camiones", km := some "abc" } = (0, "Km") := by
  apply calc_vehicle_none _ (Or.inr (by decide))
  show (pyFloatSyntax (pyStripChars (pyReplaceCommaDot "abc").data)).map FloatLit.val = _
  rw [show pyFloatSyntax (pyStripChars (pyReplaceCommaDot "abc").data) = none by decide]
  rfl

example : calculate_value_to_add { categoria := some "Maquinarias", tiempo := some "2:30" } = (5/2, "Horas") := by
  have hs : splitColon (pyStrip (({ categoria := some "Maquinarias", tiempo := some "2:30" } : Row).tiempo.getD "0:00")).data
      = [['2'], ['3', '0']] := by decide
  have hh : pyIntChars (pyStripChars ['2']) = some 2 := by decide
  have hm : pyIntChars (pyStripChars ['3', '0']) = some 30 := by decide
  rw [calc_maq_two _ (by decide) (by decide) (by decide) hs hh hm]
  norm_num

example : calculate_value_to_add { categoria := some "Maquinarias", tiempo := some "5" } = (5, "Horas") := by
  have hs : splitColon (pyStrip (({ categoria := some "Maquinarias", tiempo := some "5" } : Row).tiempo.getD "0:00")).data
      = [['5']] := by decide
  have hh : pyIntChars (pyStripChars ['5']) = some 5 := by decide
  rw [calc_maq_nocolon _ (by decide) (by decide) (by decide) hs hh]
  norm_num

example : calculate_value_to_add { categoria := some "Maquinarias", tiempo := some "abc" } = (0, "Horas") := by
  have hs : splitColon (pyStrip (({ categoria := some "Maquinarias", tiempo := some "abc" } : Row).tiempo.getD "0:00")).data
      = [['a', 'b', 'c']] := by decide
  have hh : pyIntChars (pyStripChars ['a', 'b', 'c']) = none := by decide
  exact calc_maq_fail0 _ (by decide) (by decide) (by decide) hs hh

example : calculate_value_to_add { categoria := some "Tractores" } = (0, "Desconocido") := by
  exact calc_unknown _ (by decide) (by decide) (by decide)

example : calculate_value_to_add {} = (0, "Desconocido") := by
  exact calc_unknown _ (by decide) (by decide) (by decide)


example :
    runPipeline ⟨false, fun _ => none, fun _ => (false, "")⟩
      [{ interno := some "ER-1" }] =
    { ok := false, message := "Error de autenticación", stats := Stats.zero, rowResults := [] } := by
  decide

example :
    runPipeline ⟨true, fun _ => some 0, fun _ => (true, "")⟩
      [{ interno := some "ER-1", estado := some " ok " }] =
    { ok := true, message := "0 exitosos, 0 fallidos", stats := ⟨0, 0, 0, 1⟩,
      rowResults := [(0, .already, [])] } := by
  decide


example : update_meter (.resp 200 (some (.dict [("success", .bool true)])) "") =
    .ok (true, "Contador actualizado correctamente.") := rfl

example : update_meter (.resp 500 (some (.dict [("success", .bool true)])) "boom") =
    .ok (false, "Error HTTP 500: boom") := rfl

example : update_meter (.exn "timeout") =
    .ok (false, "Excepción al actualizar contador: timeout") := rfl

example : update_meter (.resp 200 (some (.int 1)) "1") = .error "AttributeError" := rfl

example : get_meter_value (.resp 200 (some (.dict [("data",
    .list [.dict [("last_data", .dict [("accumulated_value", .num 1000)])]])])) "") =
    .ok (.num 1000) := rfl

example : get_meter_value (.resp 200 (some (.dict [("data", .list [])])) "") = .ok .none := rfl

example : get_meter_value (.resp 200 (some (.dict [("data", .list [.int 5])])) "") =
    .error "AttributeError" := rfl

example : authenticate (.resp 200 (some (.dict [("access_token", .str "tok")])) "") =
    .ok true := rfl

example : authenticate (.resp 200 (some (.dict [])) "") = .ok false := rfl

/-! ### Branch lemmas for the pipeline -/

theorem processRow_noId (o : Oracle) (idx : ℕ) (r : Row)
    (h : r.getInterno = "" ∨ r.getInterno = "nan") :
    processRow o idx r = (.noId, []) := by
  unfold processRow
  rw [if_pos h]

theorem processRow_already (o : Oracle) (idx : ℕ) (r : Row)
    (h1 : ¬ (r.getInterno = "" ∨ r.getInterno = "nan"))
    (h2 : r.getEstado = "OK") :
    processRow o idx r = (.already, []) := by
  unfold processRow
  rw [if_neg h1, if_pos h2]

theorem processRow_noMeter (o : Oracle) (idx : ℕ) (r : Row)
    (h1 : ¬ (r.getInterno = "" ∨ r.getInterno = "nan"))
    (h2 : r.getEstado ≠ "OK")
    (hl : o.lookup idx = none) :
    processRow o idx r = (.noMeter, [.lookup r.getInterno]) := by
  unfold processRow
  rw [if_neg h1, if_neg h2]
  simp only [hl]

theorem processRow_skipped (o : Oracle) (idx : ℕ) (r : Row) (cur : ℚ)
    (h1 : ¬ (r.getInterno = "" ∨ r.getInterno = "nan"))
    (h2 : r.getEstado ≠ "OK")
    (hl : o.lookup idx = some cur)
    (hz : (calculate_value_to_add r).1 = 0) :
    processRow o idx r = (.skipped, [.lookup r.getInterno]) := by
  unfold processRow
  rw [if_neg h1, if_neg h2]
  simp only [hl]
  rw [if_pos hz]

theorem processRow_updated (o : Oracle) (idx : ℕ) (r : Row) (cur : ℚ)
    (h1 : ¬ (r.getInterno = "" ∨ r.getInterno = "nan"))
    (h2 : r.getEstado ≠ "OK")
    (hl : o.lookup idx = some cur)
    (hz : (calculate_value_to_add r).1 ≠ 0)
    (hu : (o.update idx).1 = true) :
    processRow o idx r = (.updated, [.lookup r.getInterno,
      .update r.getInterno (cur + (calculate_value_to_add r).1), .write idx "OK"]) := by
  unfold processRow
  rw [if_neg h1, if_neg h2]
  simp only [hl]
  rw [if_neg hz, if_pos hu]

theorem processRow_updateFailed (o : Oracle) (idx : ℕ) (r : Row) (cur : ℚ)
    (h1 : ¬ (r.getInterno = "" ∨ r.getInterno = "nan"))
    (h2 : r.getEstado ≠ "OK")
    (hl : o.lookup idx = some cur)
    (hz : (calculate_value_to_add r).1 ≠ 0)
    (hu : (o.update idx).1 = false) :
    processRow o idx r = (.updateFailed, [.lookup r.getInterno,
      .update r.getInterno (cur + (calculate_value_to_add r).1)]) := by
  unfold processRow
  rw [if_neg h1, if_neg h2]
  simp only [hl]
  rw [if_neg hz, if_neg (by simp [hu])]

theorem runPipeline_auth_false (o : Oracle) (rows : List Row) (h : o.auth = false) :
    runPipeline o rows =
      { ok := false, message := "Error de autenticación", stats := Stats.zero, rowResults := [] } := by
  unfold runPipeline
  rw [if_neg (by simp [h])]

theorem runPipeline_rowResults (o : Oracle) (rows : List Row) (h : o.auth = true) :
    (runPipeline o rows).rowResults = rows.enum.map fun p => (p.1, processRow o p.1 p.2) := by
  unfold runPipeline
  rw [if_pos h]

theorem runPipeline_stats (o : Oracle) (rows : List Row) (h : o.auth = true) :
    (runPipeline o rows).stats =
      (rows.enum.map fun p => (p.1, processRow o p.1 p.2)).foldl
        (fun s p => stepStats p.2.1 s) Stats.zero := by
  unfold runPipeline
  rw [if_pos h]

/-- The per-row write discipline behind C1, established branch by branch. -/
theorem processRow_writes (o : Oracle) (idx : ℕ) (r : Row) :
    ((processRow o idx r).2.countP (fun a => a.isWrite) ≤ 1)
    ∧ ((processRow o idx r).1 = .updated ↔
        (processRow o idx r).2.countP (fun a => a.isWrite) = 1)
    ∧ ((processRow o idx r).1 = .updated →
        ∃ v, (processRow o idx r).2 =
          [.lookup r.getInterno, .update r.getInterno v, .write idx "OK"]
          ∧ (o.update idx).1 = true)
    ∧ ((processRow o idx r).1 ≠ .updated →
        (processRow o idx r).2.countP (fun a => a.isWrite) = 0) := by
  by_cases h1 : r.getInterno = "" ∨ r.getInterno = "nan"
  · rw [processRow_noId o idx r h1]
    simp [Action.isWrite]
  · by_cases h2 : r.getEstado = "OK"
    · rw [processRow_already o idx r h1 h2]
      simp [Action.isWrite]
    · cases hl : o.lookup idx with
      | none =>
        rw [processRow_noMeter o idx r h1 h2 hl]
        simp [Action.isWrite]
      | some cur =>
        by_cases hz : (calculate_value_to_add r).1 = 0
        · rw [processRow_skipped o idx r cur h1 h2 hl hz]
          simp [Action.isWrite]
        · cases hu : (o.update idx).1 with
          | true =>
            rw [processRow_updated o idx r cur h1 h2 hl hz hu]
            refine ⟨by simp [Action.isWrite], by simp [Action.isWrite], ?_, by simp⟩
            exact fun _ => ⟨cur + (calculate_value_to_add r).1, rfl, by simp [hu]⟩
          | false =>
            rw [processRow_updateFailed o idx r cur h1 h2 hl hz hu]
            simp [Action.isWrite]

/-! ### Claims -/

/-- C4: if `authenticate()` returns false, the run aborts with the fatal
failure signal before visiting any row: no row results, no remote calls,
and all four statistics counters still zero. -/
theorem C4_auth_failure_aborts_run (o : Oracle) (rows : List Row) (h : o.auth = false) :
    runPipeline o rows =
      { ok := false, message := "Error de autenticación",
        stats := Stats.zero, rowResults := [] } :=
  runPipeline_auth_false o rows h

/-- Witness for C4 at a concrete oracle and source. -/
theorem C4_witness :
    runPipeline oracleNoAuth [{ interno := some "ER-1022", km := some "50" }] =
      { ok := false, message := "Error de autenticación",
        stats := Stats.zero, rowResults := [] } :=
  C4_auth_failure_aborts_run oracleNoAuth _ rfl

/-- C8: a row whose identifier is empty or the missing-value text `"nan"`
is silently skipped: classified `noId` with an empty action trace (no
remote call, no status write), and its classification leaves every
counter unchanged. -/
theorem C8_missing_identifier_no_effect (o : Oracle) (idx : ℕ) (r : Row)
    (h : r.getInterno = "" ∨ r.getInterno = "nan") :
    processRow o idx r = (.noId, [])
    ∧ ∀ s : Stats, stepStats (processRow o idx r).1 s = s := by
  have hp := processRow_noId o idx r h
  exact ⟨hp, fun s => by rw [hp]; rfl⟩

/-- Witness for C8 at a whitespace-only identifier. -/
theorem C8_witness :
    processRow oracleA 0 { interno := some "  ", categoria := some "Camiones", km := some "50" }
      = (.noId, [])
    ∧ ∀ s : Stats,
        stepStats (processRow oracleA 0
          { interno := some "  ", categoria := some "Camiones", km := some "50" }).1 s = s :=
  C8_missing_identifier_no_effect oracleA 0 _ (by decide)

/-- C5 counterexample: a row whose identifier cell holds the missing-value
text `"nan"` (a non-empty string) and whose status is "OK" is classified
`noId`, not already-processed, and increments no counter — refuting the
claim as stated for that row. -/
theorem C5_counterexample :
    processRow oracleA 0 { interno := some "nan", estado := some "OK" } = (.noId, [])
    ∧ (RowClass.noId, ([] : List Action)) ≠ (RowClass.already, ([] : List Action))
    ∧ stepStats RowClass.noId Stats.zero = Stats.zero := by
  refine ⟨by decide, by decide, rfl⟩

/-- C5 (amended): for every row whose identifier is non-empty and not the
missing-value text `"nan"`, and whose status equals "OK" after trimming
and upper-casing, the pipeline issues zero remote calls, classifies the
row already-processed, and its classification increments exactly the
already-processed counter. -/
theorem C5_already_ok_rows (o : Oracle) (idx : ℕ) (r : Row)
    (h1 : r.getInterno ≠ "") (h2 : r.getInterno ≠ "nan")
    (h3 : r.getEstado = "OK") :
    processRow o idx r = (.already, [])
    ∧ ∀ s : Stats, stepStats (processRow o idx r).1 s =
        { s with already := s.already + 1 } := by
  have hp := processRow_already o idx r (by tauto) h3
  exact ⟨hp, fun s => by rw [hp]; rfl⟩

/-- Witness for C5 with a lower-case padded "ok" marker. -/
theorem C5_witness :
    processRow oracleA 3 { interno := some "ER-1022", km := some "50", estado := some " ok " }
      = (.already, [])
    ∧ ∀ s : Stats,
        stepStats (processRow oracleA 3
          { interno := some "ER-1022", km := some "50", estado := some " ok " }).1 s =
          { s with already := s.already + 1 } :=
  C5_already_ok_rows oracleA 3 _ (by decide) (by decide) (by decide)

/-- C1: in every run, row results carry pairwise distinct row indices
(each row is visited once), each row's trace contains at most one status
write, a write is present exactly on rows classified updated, an updated
row's trace is lookup–update–write in that order (the write immediately
after the successful update, never before the attempt), and rows of any
other classification have no write at all. -/
theorem C1_status_write_discipline (o : Oracle) (rows : List Row)
    (p : ℕ × RowClass × List Action) (hp : p ∈ (runPipeline o rows).rowResults) :
    ((runPipeline o rows).rowResults.map Prod.fst).Nodup
    ∧ p.2.2.countP (fun a => a.isWrite) ≤ 1
    ∧ (p.2.1 = .updated ↔ p.2.2.countP (fun a => a.isWrite) = 1)
    ∧ (p.2.1 = .updated →
        ∃ s v, p.2.2 = [.lookup s, .update s v, .write p.1 "OK"]
          ∧ (o.update p.1).1 = true)
    ∧ (p.2.1 ≠ .updated → p.2.2.countP (fun a => a.isWrite) = 0) := by
  cases ha : o.auth with
  | false =>
    rw [runPipeline_auth_false o rows ha] at hp
    exact absurd hp (List.not_mem_nil p)
  | true =>
    rw [runPipeline_rowResults o rows ha] at hp ⊢
    refine ⟨?_, ?_⟩
    · rw [List.map_map]
      have he : (Prod.fst ∘ fun q : ℕ × Row => (q.1, processRow o q.1 q.2)) = Prod.fst := rfl
      rw [he, List.enum_map_fst]
      exact List.nodup_range _
    · rcases List.mem_map.1 hp with ⟨q, _, rfl⟩
      have hw := processRow_writes o q.1 q.2
      refine ⟨hw.1, hw.2.1, ?_, hw.2.2.2⟩
      intro h
      rcases hw.2.2.1 h with ⟨v, hv, hu⟩
      exact ⟨q.2.getInterno, v, hv, hu⟩

/-- Witness for C1 on a one-row run whose row is already processed. -/
theorem C1_witness :
    ((runPipeline oracleA rowsAlready).rowResults.map Prod.fst).Nodup
    ∧ List.countP (fun a => a.isWrite) ([] : List Action) ≤ 1
    ∧ (RowClass.already = RowClass.updated ↔
        List.countP (fun a => a.isWrite) ([] : List Action) = 1)
    ∧ (RowClass.already = RowClass.updated →
        ∃ s v, ([] : List Action) = [.lookup s, .update s v, .write 0 "OK"]
          ∧ (oracleA.update 0).1 = true)
    ∧ (RowClass.already ≠ RowClass.updated →
        List.countP (fun a => a.isWrite) ([] : List Action) = 0) :=
  C1_status_write_discipline oracleA rowsAlready (0, (.already, [])) (by decide)

/-- C7: `calculate_value_to_add` is total: on every row (any combination
of absent or arbitrary textual fields) it yields one of the three defined
unit tags, and a failed parse of the relevant field yields a zero delta
(for vehicle rows a failed float parse, for machinery rows a failed
integer parse of an hour or minute segment). -/
theorem C7_calculator_total (r : Row) :
    ((calculate_value_to_add r).2 = "Km" ∨ (calculate_value_to_add r).2 = "Horas"
      ∨ (calculate_value_to_add r).2 = "Desconocido")
    ∧ ((r.getCategoria = "Flota Liviana" ∨ r.getCategoria = "Camiones") →
        pyFloat (pyReplaceCommaDot (r.km.getD "0")) = none →
        calculate_value_to_add r = (0, "Km"))
    ∧ (∀ p0 ps, r.getCategoria = "Maquinarias" →
        splitColon (pyStrip (r.tiempo.getD "0:00")).data = p0 :: ps →
        pyIntChars (pyStripChars p0) = none →
        calculate_value_to_add r = (0, "Horas"))
    ∧ (∀ p0 p1 ps h, r.getCategoria = "Maquinarias" →
        splitColon (pyStrip (r.tiempo.getD "0:00")).data = p0 :: p1 :: ps →
        pyIntChars (pyStripChars p0) = some h →
        pyIntChars (pyStripChars p1) = none →
        calculate_value_to_add r = (0, "Horas")) := by
  refine ⟨?_, fun hc hf => calc_vehicle_none r hc hf,
    fun p0 ps hc hs hh =>
      calc_maq_fail0 r hc (by rw [hc]; decide) (by rw [hc]; decide) hs hh,
    fun p0 p1 ps h hc hs hh hm =>
      calc_maq_fail1 r hc (by rw [hc]; decide) (by rw [hc]; decide) hs hh hm⟩
  unfold calculate_value_to_add
  repeat' split
  all_goals simp

/-- Witness for C7 on a row with an unparsable distance cell. -/
theorem C7_witness :
    ((calculate_value_to_add { interno := some "ER-1022", categoria := some "Camiones", km := some "abc" }).2 = "Km"
      ∨ (calculate_value_to_add { interno := some "ER-1022", categoria := some "Camiones", km := some "abc" }).2 = "Horas"
      ∨ (calculate_value_to_add { interno := some "ER-1022", categoria := some "Camiones", km := some "abc" }).2 = "Desconocido")
    ∧ calculate_value_to_add { interno := some "ER-1022", categoria := some "Camiones", km := some "abc" } = (0, "Km") :=
  have h := C7_calculator_total { interno := some "ER-1022", categoria := some "Camiones", km := some "abc" }
  ⟨h.1, h.2.1 (Or.inr (by decide)) (by
    show (pyFloatSyntax (pyStripChars (pyReplaceCommaDot "abc").data)).map FloatLit.val = _
    rw [show pyFloatSyntax (pyStripChars (pyReplaceCommaDot "abc").data) = none by decide]
    rfl)⟩

/-- C10: category dispatch is an exact post-trim string comparison: any
category other than the three recognised ones (different case, different
accents, absent column) yields `(0, "Desconocido")`; such a row with a
valid identifier and no "OK" marker never gets an update call, and is
classified skipped whenever its meter lookup returns a value. -/
theorem C10_category_dispatch_exact (o : Oracle) (idx : ℕ) (r : Row)
    (hc1 : r.getCategoria ≠ "Flota Liviana") (hc2 : r.getCategoria ≠ "Camiones")
    (hc3 : r.getCategoria ≠ "Maquinarias")
    (hid : ¬ (r.getInterno = "" ∨ r.getInterno = "nan"))
    (hok : r.getEstado ≠ "OK") :
    calculate_value_to_add r = (0, "Desconocido")
    ∧ (∀ a ∈ (processRow o idx r).2, a.isUpdate = false)
    ∧ (∀ cur, o.lookup idx = some cur →
        processRow o idx r = (.skipped, [.lookup r.getInterno])) := by
  have hcalc := calc_unknown r hc1 hc2 hc3
  have hz : (calculate_value_to_add r).1 = 0 := by rw [hcalc]
  refine ⟨hcalc, ?_, fun cur hl => processRow_skipped o idx r cur hid hok hl hz⟩
  cases hl : o.lookup idx with
  | none =>
    rw [processRow_noMeter o idx r hid hok hl]
    intro a ha
    simp only [List.mem_singleton] at ha
    rw [ha]
    rfl
  | some cur =>
    rw [processRow_skipped o idx r cur hid hok hl hz]
    intro a ha
    simp only [List.mem_singleton] at ha
    rw [ha]
    rfl

/-- Witness for C10 on the lower-case category "camiones". -/
theorem C10_witness :
    calculate_value_to_add { interno := some "ER-1022", categoria := some "camiones", km := some "50" }
      = (0, "Desconocido")
    ∧ (∀ a ∈ (processRow oracleA 0
        { interno := some "ER-1022", categoria := some "camiones", km := some "50" }).2,
        a.isUpdate = false)
    ∧ (∀ cur, oracleA.lookup 0 = some cur →
        processRow oracleA 0 { interno := some "ER-1022", categoria := some "camiones", km := some "50" }
          = (.skipped, [.lookup (Row.getInterno { interno := some "ER-1022", categoria := some "camiones", km := some "50" })])) :=
  C10_category_dispatch_exact oracleA 0 _ (by decide) (by decide) (by decide) (by decide) (by decide)

/-- C9: only a delta exactly equal to zero makes the pipeline classify a
row skipped; a vehicle row whose distance parses to a negative number is
not skipped — the pipeline submits `current + delta`, strictly below the
current remote reading. -/
theorem C9_negative_delta_submitted :
    (∀ (o : Oracle) (idx : ℕ) (r : Row),
      (processRow o idx r).1 = .skipped → (calculate_value_to_add r).1 = 0)
    ∧ (∀ (o : Oracle) (idx : ℕ) (r : Row) (cur d : ℚ),
        ¬ (r.getInterno = "" ∨ r.getInterno = "nan") →
        r.getEstado ≠ "OK" →
        (r.getCategoria = "Flota Liviana" ∨ r.getCategoria = "Camiones") →
        o.lookup idx = some cur →
        pyFloat (pyReplaceCommaDot (r.km.getD "0")) = some d →
        d < 0 →
        calculate_value_to_add r = (d, "Km")
        ∧ (processRow o idx r).1 ≠ .skipped
        ∧ Action.update r.getInterno (cur + d) ∈ (processRow o idx r).2
        ∧ cur + d < cur) := by
  constructor
  · intro o idx r h
    by_cases h1 : r.getInterno = "" ∨ r.getInterno = "nan"
    · rw [processRow_noId o idx r h1] at h
      exact absurd h (by simp)
    · by_cases h2 : r.getEstado = "OK"
      · rw [processRow_already o idx r h1 h2] at h
        exact absurd h (by simp)
      · cases hl : o.lookup idx with
        | none =>
          rw [processRow_noMeter o idx r h1 h2 hl] at h
          exact absurd h (by simp)
        | some cur =>
          by_cases hz : (calculate_value_to_add r).1 = 0
          · exact hz
          · cases hu : (o.update idx).1 with
            | true =>
              rw [processRow_updated o idx r cur h1 h2 hl hz hu] at h
              exact absurd h (by simp)
            | false =>
              rw [processRow_updateFailed o idx r cur h1 h2 hl hz hu] at h
              exact absurd h (by simp)
  · intro o idx r cur d hid hok hc hl hd hneg
    have hcalc : calculate_value_to_add r = (d, "Km") := calc_vehicle_some r hc hd
    have hz : (calculate_value_to_add r).1 ≠ 0 := by
      rw [hcalc]
      exact ne_of_lt hneg
    have hval : cur + (calculate_value_to_add r).1 = cur + d := by rw [hcalc]
    refine ⟨hcalc, ?_, ?_, by linarith⟩
    · cases hu : (o.update idx).1 with
      | true =>
        rw [processRow_updated o idx r cur hid hok hl hz hu]
        simp
      | false =>
        rw [processRow_updateFailed o idx r cur hid hok hl hz hu]
        simp
    · cases hu : (o.update idx).1 with
      | true =>
        rw [processRow_updated o idx r cur hid hok hl hz hu, hval]
        simp
      | false =>
        rw [processRow_updateFailed o idx r cur hid hok hl hz hu, hval]
        simp

/-- Witness for C9: distance "-5" against a current reading of 1000. -/
theorem C9_witness :
    calculate_value_to_add { interno := some "ER-1022", categoria := some "Camiones", km := some "-5" }
      = (-5, "Km")
    ∧ (processRow oracleA 0
        { interno := some "ER-1022", categoria := some "Camiones", km := some "-5" }).1 ≠ .skipped
    ∧ Action.update
        (Row.getInterno { interno := some "ER-1022", categoria := some "Camiones", km := some "-5" })
        (1000 + -5) ∈
        (processRow oracleA 0
          { interno := some "ER-1022", categoria := some "Camiones", km := some "-5" }).2
    ∧ (1000 : ℚ) + -5 < 1000 :=
  C9_negative_delta_submitted.2 oracleA 0
    { interno := some "ER-1022", categoria := some "Camiones", km := some "-5" } 1000 (-5)
    (by decide) (by decide) (Or.inr (by decide)) rfl
    (by
      show (pyFloatSyntax (pyStripChars (pyReplaceCommaDot "-5").data)).map FloatLit.val = _
      rw [show pyFloatSyntax (pyStripChars (pyReplaceCommaDot "-5").data) =
        some ⟨true, 5, 0, 0, 0⟩ by decide]
      simp [FloatLit.val, applySign])
    (by norm_num)

/-- C2 counterexample: the `Tiempo de marcha` text "5" has no colon, which
the claim calls malformed with value 0; the code parses it as 5 whole
hours, so `calculate_value_to_add` differs from the claimed case
definition at this row. -/
theorem C2_counterexample :
    calculate_value_to_add { categoria := some "Maquinarias", tiempo := some "5" } = (5, "Horas")
    ∧ specCalculatorClaimed { categoria := some "Maquinarias", tiempo := some "5" } = (0, "Horas")
    ∧ calculate_value_to_add { categoria := some "Maquinarias", tiempo := some "5" } ≠
        specCalculatorClaimed { categoria := some "Maquinarias", tiempo := some "5" } := by
  have hs : splitColon (pyStrip (({ categoria := some "Maquinarias", tiempo := some "5" } : Row).tiempo.getD "0:00")).data
      = [['5']] := by decide
  have hh : pyIntChars (pyStripChars ['5']) = some 5 := by decide
  have h1 : calculate_value_to_add { categoria := some "Maquinarias", tiempo := some "5" } = (5, "Horas") := by
    rw [calc_maq_nocolon _ (by decide) (by decide) (by decide) hs hh]
    norm_num
  have h2 : specCalculatorClaimed { categoria := some "Maquinarias", tiempo := some "5" } = (0, "Horas") := by
    unfold specCalculatorClaimed specHMMClaimed
    rw [if_neg (by decide), if_pos (by decide)]
    simp only [hs]
  refine ⟨h1, h2, ?_⟩
  rw [h1, h2]
  norm_num [Prod.ext_iff]

/-- C2 (amended): `calculate_value_to_add` equals the case definition in
which a vehicle row parses the comma-tolerant distance (unparsable → 0,
unit "Km"), a "Maquinarias" row splits the running time on ":" and
integer-parses hours and minutes (minutes 0 when no colon, segments past
the second ignored, either parse failing → 0; unit "Horas"), and any
other category gives (0, "Desconocido"). -/
theorem C2_calculator_matches_amended_case (r : Row) :
    calculate_value_to_add r = specCalculatorAmended r := by
  by_cases hv : r.getCategoria = "Flota Liviana" ∨ r.getCategoria = "Camiones"
  · unfold calculate_value_to_add specCalculatorAmended
    rw [if_pos hv, if_pos hv]
    cases hf : pyFloat (pyReplaceCommaDot (r.km.getD "0")) with
    | none => simp [hf]
    | some v => simp [hf]
  · by_cases hm : r.getCategoria = "Maquinarias"
    · unfold calculate_value_to_add specCalculatorAmended specHMMAmended
      rw [if_neg hv, if_neg hv, if_pos hm, if_pos hm]
      cases hs : splitColon (pyStrip (r.tiempo.getD "0:00")).data with
      | nil => simp [hs]
      | cons p0 rest =>
        cases hh : pyIntChars (pyStripChars p0) with
        | none => simp [hs, hh]
        | some h =>
          cases rest with
          | nil => simp [hs, hh]
          | cons p1 ps =>
            cases hm2 : pyIntChars (pyStripChars p1) with
            | none => simp [hs, hh, hm2]
            | some m => simp [hs, hh, hm2]
    · unfold calculate_value_to_add specCalculatorAmended
      rw [if_neg hv, if_neg hv, if_neg hm, if_neg hm]

/-- C3 counterexample: a 200 response whose JSON body is the number 1
makes `update_meter` raise `AttributeError` (refuting "never raises"),
and a 200 body `{success: 1}` — truthy but not `true` — yields
`(True, ...)` (refuting "(True, ...) only if success = true"). -/
theorem C3_counterexample :
    raised (update_meter (.resp 200 (some (.int 1)) "1")) = true
    ∧ update_meter (.resp 200 (some (.dict [("success", .int 1)])) "") =
        .ok (true, "Contador actualizado correctamente.") :=
  ⟨rfl, rfl⟩

/-- C3 (amended): `update_meter` returns `(True, ...)` iff the response
has status 200 and a JSON-object body with truthy `success`; it raises
iff the response is a 200 whose body parses as JSON but not as an object;
in every remaining case it returns `(False, message)`. -/
theorem C3_update_meter_characterisation (r : HResp) :
    ((∃ m, update_meter r = .ok (true, m)) ↔ specUpdateSuccess r = true)
    ∧ raised (update_meter r) = specUpdateRaises r
    ∧ (specUpdateRaises r = false → ∃ b m, update_meter r = .ok (b, m)) := by
  cases r with
  | exn m =>
    exact ⟨by simp [update_meter, specUpdateSuccess], rfl, fun _ => ⟨false, _, rfl⟩⟩
  | resp status body text =>
    by_cases h200 : status = 200
    · subst h200
      cases body with
      | none =>
        exact ⟨by simp [update_meter, specUpdateSuccess], rfl, fun _ => ⟨false, _, rfl⟩⟩
      | some data =>
        cases data with
        | dict kvs =>
          have hred : update_meter (.resp 200 (some (.dict kvs)) text) =
              if ((lookupKey "success" kvs).getD .none).truthy
              then .ok (true, "Contador actualizado correctamente.")
              else .ok (false, "Error reportado por Fracttal: " ++ pyRepr (.dict kvs)) := rfl
          by_cases ht : ((lookupKey "success" kvs).getD .none).truthy = true
          · rw [hred, if_pos ht]
            refine ⟨?_, by simp [specUpdateRaises, raised, PyVal.isDict], fun _ => ⟨true, _, rfl⟩⟩
            simp [specUpdateSuccess, ht]
          · rw [hred, if_neg ht]
            refine ⟨?_, by simp [specUpdateRaises, raised, PyVal.isDict], fun _ => ⟨false, _, rfl⟩⟩
            simp [specUpdateSuccess]
            simpa using ht
        | none =>
          exact ⟨by simp [update_meter, PyVal.get, specUpdateSuccess], rfl,
            by simp [specUpdateRaises, PyVal.isDict]⟩
        | bool b =>
          exact ⟨by simp [update_meter, PyVal.get, specUpdateSuccess], rfl,
            by simp [specUpdateRaises, PyVal.isDict]⟩
        | int n =>
          exact ⟨by simp [update_meter, PyVal.get, specUpdateSuccess], rfl,
            by simp [specUpdateRaises, PyVal.isDict]⟩
        | num q =>
          exact ⟨by simp [update_meter, PyVal.get, specUpdateSuccess], rfl,
            by simp [specUpdateRaises, PyVal.isDict]⟩
        | str s =>
          exact ⟨by simp [update_meter, PyVal.get, specUpdateSuccess], rfl,
            by simp [specUpdateRaises, PyVal.isDict]⟩
        | list xs =>
          exact ⟨by simp [update_meter, PyVal.get, specUpdateSuccess], rfl,
            by simp [specUpdateRaises, PyVal.isDict]⟩
    · have hne : update_meter (.resp status body text) =
          .ok (false, "Error HTTP " ++ toString status ++ ": " ++ text) := by
        simp only [update_meter]
        rw [if_neg h200]
      have hsf : specUpdateSuccess (.resp status body text) = false := by
        cases body with
        | none => rfl
        | some data => cases data <;> simp [specUpdateSuccess, h200]
      have hrf : specUpdateRaises (.resp status body text) = false := by
        cases body with
        | none => rfl
        | some data => simp [specUpdateRaises, h200]
      rw [hne, hsf, hrf]
      exact ⟨by simp, rfl, fun _ => ⟨false, _, rfl⟩⟩

/-- Witness for C3 on a concrete 404 and a concrete transport error. -/
theorem C3_witness :
    (specUpdateRaises (.resp 404 Option.none "not found") = false →
      ∃ b m, update_meter (.resp 404 Option.none "not found") = .ok (b, m))
    ∧ raised (update_meter (.exn "timeout")) = specUpdateRaises (.exn "timeout") :=
  ⟨(C3_update_meter_characterisation (.resp 404 Option.none "not found")).2.2,
    (C3_update_meter_characterisation (.exn "timeout")).2.1⟩

/-- C6 counterexample: a well-formed JSON response whose `data` array
holds a number instead of an object makes `get_meter_value` raise
`AttributeError` past its `except` clause, refuting "never raises ... for
every response the remote may return". -/
theorem C6_counterexample :
    get_meter_value (.resp 200 (some (.dict [("data", .list [.int 5])])) "") =
      .error "AttributeError" := rfl

/-- C6 (amended): every remote call isolates transport exceptions, HTTP
error statuses (4xx/5xx) and non-JSON bodies into its sentinel result
(`False` / `None` / `(False, message)`), and `get_meter_value` returns
the absent sentinel both on failure and when the body's `data` entry is
falsy, so callers cannot distinguish the two; but a parsed JSON body of
unexpected shape can raise a dynamic type error that escapes to the
orchestrator. -/
theorem C6_remote_error_isolation :
    (∀ m, authenticate (.exn m) = .ok false
      ∧ get_meter_value (.exn m) = .ok .none
      ∧ update_meter (.exn m) = .ok (false, "Excepción al actualizar contador: " ++ m))
    ∧ (∀ status body text, raisesForStatus status = true →
        authenticate (.resp status body text) = .ok false
        ∧ get_meter_value (.resp status body text) = .ok .none)
    ∧ (∀ status text, authenticate (.resp status Option.none text) = .ok false
        ∧ get_meter_value (.resp status Option.none text) = .ok .none)
    ∧ (∀ status text kvs, raisesForStatus status = false →
        ((lookupKey "data" kvs).getD .none).truthy = false →
        get_meter_value (.resp status (some (.dict kvs)) text) = .ok .none)
    ∧ raised (get_meter_value (.resp 200 (some (.dict [("data", .list [.int 5])])) "")) = true := by
  refine ⟨fun m => ⟨rfl, rfl, rfl⟩, ?_, ?_, ?_, rfl⟩
  · intro status body text h
    constructor
    · simp only [authenticate]
      rw [if_pos h]
    · simp only [get_meter_value]
      rw [if_pos h]
  · intro status text
    constructor
    · simp only [authenticate]
      by_cases h : raisesForStatus status = true
      · rw [if_pos h]
      · rw [if_neg h]
    · simp only [get_meter_value]
      by_cases h : raisesForStatus status = true
      · rw [if_pos h]
      · rw [if_neg h]
  · intro status text kvs h ht
    simp only [get_meter_value]
    rw [if_neg (by simp [h])]
    simp [PyVal.get, ht]

/-- Witness for C6: a 500 response and an empty `data` array both yield
the absent sentinel. -/
theorem C6_witness :
    (authenticate (.resp 500 Option.none "boom") = .ok false
      ∧ get_meter_value (.resp 500 Option.none "boom") = .ok .none)
    ∧ get_meter_value (.resp 200 (some (.dict [("data", .list [])])) "") = .ok .none :=
  ⟨C6_remote_error_isolation.2.1 500 Option.none "boom" (by decide),
    C6_remote_error_isolation.2.2.2.1 200 "" [("data", .list [])] (by decide) (by decide)⟩

end FracttalUpdater
